import Mathlib

/-!
Shallow embedding of `app.py` (DiscNote / Simple Twitch Monitor).

The mutable global `store["streamers"]` dict is modelled as an insertion-ordered
association list `Registry` (Python dicts preserve insertion order and have
unique keys).  Each event handler of the source is translated as a pure function
from the registry to the new registry together with the list of side effects it
performs, in execution order.  External collaborators (the Twitch API lookups,
`json` serialization, `datetime` formatting, the HTTP posts, the WebSocket
sends) are passed in as explicit parameters, mirroring only their interface.
-/

set_option autoImplicit false

namespace DiscNote

/-- One tracked streamer's record, mirroring the per-login dict stored under
`store["streamers"]` in app.py: fields `user_id`, `display_name`, `is_live`,
`last_live`, `started_at`, `title`, `game_id`, `game_name`.  `game_name` is an
`Option` because `on_channel_update` stores the raw result of `game_name_for`,
which can be Python `None`; all other fields are always strings (or bool). -/
structure Streamer where
  user_id : String
  display_name : String
  is_live : Bool
  last_live : String
  started_at : String
  title : String
  game_id : String
  game_name : Option String
deriving Repr, DecidableEq

/-- The `store["streamers"]` dict: insertion-ordered login → record map. -/
abbrev Registry := List (String × Streamer)

/-- A side effect performed by a handler, in execution order:
`persist` is `save_store(store)` (we record the streamers section of the saved
snapshot), `broadcast` is `push_update_to_clients()` (the full-state payload it
sends), `notifyOnline`/`notifyOffline` are the `discord_notify_*` calls with
the login and the record passed at that moment. -/
inductive Effect where
  | persist (snap : Registry)
  | broadcast (snap : Registry)
  | notifyOnline (login : String) (s : Streamer)
  | notifyOffline (login : String) (s : Streamer)
deriving Repr, DecidableEq

/-- True exactly for a Discord notification effect. -/
def isNotifyEffect : Effect → Bool
  | .notifyOnline _ _ => true
  | .notifyOffline _ _ => true
  | _ => false

/-- The lookup loop shared by the three EventSub handlers:
`for login, s in store["streamers"].items(): if s.get("user_id") == uid: ... break`
— the first record whose `user_id` equals the event's `broadcaster_user_id`. -/
def findByUid : Registry → String → Option (String × Streamer)
  | [], _ => none
  | (l, s) :: rest, uid =>
    if s.user_id = uid then some (l, s) else findByUid rest uid

/-- In-place mutation of the first record matching `uid` (the handlers mutate
the found dict `s` before `break`ing, so only the first match changes). -/
def applyToUid : Registry → String → (Streamer → Streamer) → Registry
  | [], _, _ => []
  | (l, s) :: rest, uid, f =>
    if s.user_id = uid then (l, f s) :: rest
    else (l, s) :: applyToUid rest uid f

/-- Mirrors `on_online` (app.py lines 177-186): find the record with the
event's `broadcaster_user_id`; if found, set `is_live = True` and
`started_at` from the event, then `save_store`, `push_update_to_clients`,
`discord_notify_online(login, s)` — unconditionally, with no check of the
previous `is_live`.  If no record matches, nothing happens. -/
def on_online (reg : Registry) (uid started : String) : Registry × List Effect :=
  match findByUid reg uid with
  | none => (reg, [])
  | some (login, s) =>
    let f : Streamer → Streamer := fun t => { t with is_live := true, started_at := started }
    let reg' := applyToUid reg uid f
    (reg', [.persist reg', .broadcast reg', .notifyOnline login (f s)])

/-- Mirrors `on_offline` (app.py lines 188-197): set `is_live = False` and
`last_live = now_iso()` (the current time is the parameter `nowv`), then
`save_store`, `push_update_to_clients`, `discord_notify_offline(login, s)` —
again unconditionally.  No matching record: nothing happens. -/
def on_offline (reg : Registry) (uid nowv : String) : Registry × List Effect :=
  match findByUid reg uid with
  | none => (reg, [])
  | some (login, s) =>
    let f : Streamer → Streamer := fun t => { t with is_live := false, last_live := nowv }
    let reg' := applyToUid reg uid f
    (reg', [.persist reg', .broadcast reg', .notifyOffline login (f s)])

/-- The per-record mutation of `on_channel_update`: `if title is not None:
s["title"] = title`, and `if game_id:` (Python truthiness — present AND
non-empty) set `game_id` and `game_name = await game_name_for(game_id)`.
`lookup` stands for `game_name_for`, the cached external category-name
resolution (returns `none` when the Twitch client is absent or the id is
unknown). -/
def channelUpdateField (ti gi : Option String) (lookup : String → Option String)
    (t : Streamer) : Streamer :=
  let t1 := match ti with
    | some x => { t with title := x }
    | none => t
  match gi with
  | some g => if g = "" then t1 else { t1 with game_id := g, game_name := lookup g }
  | none => t1

/-- Mirrors `on_channel_update` (app.py lines 199-212): find the record by
`broadcaster_user_id`, apply the metadata mutation, then `save_store` and
`push_update_to_clients` (no Discord notification).  No match: nothing. -/
def on_channel_update (reg : Registry) (uid : String) (ti gi : Option String)
    (lookup : String → Option String) : Registry × List Effect :=
  match findByUid reg uid with
  | none => (reg, [])
  | some (_, _) =>
    let reg' := applyToUid reg uid (channelUpdateField ti gi lookup)
    (reg', [.persist reg', .broadcast reg'])

/-! ### Subscriber Broadcast Hub (`push_update_to_clients`, app.py lines 134-147) -/

/-- A connected WebSocket client, identified abstractly. -/
abbrev Client := Nat

/-- Mirrors `push_update_to_clients`: iterate over `WS_CLIENTS` in order,
`await ws.send_text(payload)` inside `try/except` — a failing send is caught
and the client is appended to `dead`; afterwards each dead client is removed
from `WS_CLIENTS` with `list.remove` (first occurrence; `ValueError` i.e.
absence is ignored, which `List.erase` also does).  `fails c` says whether the
send to client `c` raises.  Result: the list of successful deliveries (client,
payload) in order, and the new `WS_CLIENTS` list.  The function is total: no
exception escapes to the caller. -/
def push_update_to_clients (clients : List Client) (fails : Client → Bool)
    (snap : Registry) : List (Client × Registry) × List Client :=
  let step := fun (acc : List (Client × Registry) × List Client) (ws : Client) =>
    if fails ws then (acc.1, acc.2 ++ [ws]) else (acc.1 ++ [(ws, snap)], acc.2)
  let r := clients.foldl step ([], [])
  (r.1, r.2.foldl (fun cs d => cs.erase d) clients)

/-! ### Persistent store and the Notification Dispatcher -/

/-- The persisted `store.json` document: admin credentials, Twitch
credentials and token metadata, Discord webhook, and the streamer registry. -/
structure Store where
  admin_username : String
  admin_password : String
  twitch_client_id : String
  twitch_client_secret : String
  token_obtained_at : Nat
  expires_in : Nat
  discord_webhook : String
  streamers : Registry
deriving Repr, DecidableEq

/-- `DEFAULT_STORE` from app.py lines 33-45: default admin credentials, empty
Twitch credentials, zero token metadata, empty webhook, empty registry. -/
def DEFAULT_STORE : Store :=
  { admin_username := "admin", admin_password := "changeme"
    twitch_client_id := "", twitch_client_secret := ""
    token_obtained_at := 0, expires_in := 0
    discord_webhook := ""
    streamers := [] }

/-- Mirrors `load_store` (app.py lines 47-54).  `file` is the current content
of `store.json` (`none` when the file does not exist); `parse` is `json.loads`
(`none` when it raises) and `dump` is `json.dumps(·, indent=2)` — both
external.  When the file exists and parses, its content is returned and the
file is untouched; otherwise the default store is dumped to the file and the
freshly written text is parsed back and returned.  The result pairs the
returned store with the final file content; an overall `none` is the re-read
`json.loads` raising, impossible for a real `json` round trip. -/
def load_store (file : Option String) (parse : String → Option Store)
    (dump : Store → String) : Option (Store × String) :=
  match file with
  | some txt =>
    match parse txt with
    | some s => some (s, txt)
    | none => (parse (dump DEFAULT_STORE)).map (fun s => (s, dump DEFAULT_STORE))
  | none => (parse (dump DEFAULT_STORE)).map (fun s => (s, dump DEFAULT_STORE))

/-- Mirrors `discord_notify_online` (app.py lines 150-162).  `fmtTime` stands
for `iso_to_hhmm` (a pure wrapper over the external `datetime` parser).
`postFails` says whether the `client.post` call raises or times out; the
source wraps the post in `try/except Exception: pass`, so the outcome is
never observed — accordingly the result does not depend on `postFails`.
`s.get("title") or "is live!"` falls back on an empty title, and
`s.get("game_name") or ""` maps Python `None` and `""` alike to `""`;
`display_name` is always present on registry records.  Returns the (unchanged)
store and the list of HTTP posts attempted, as (webhook URL, content) pairs. -/
def discord_notify_online (store : Store) (fmtTime : String → String)
    (login : String) (s : Streamer) (postFails : Bool) :
    Store × List (String × String) :=
  let webhook := store.discord_webhook
  if webhook = "" then (store, [])
  else
    let title := if s.title = "" then "is live!" else s.title
    let game := s.game_name.getD ""
    let started := fmtTime s.started_at
    let desc := "**" ++ s.display_name ++ "** went live.\n\n**Title:** " ++ title
      ++ "\n**Game:** " ++ game ++ "\n**Live since:** " ++ started
      ++ "\nhttps://twitch.tv/" ++ login
    (store, [(webhook, desc)])

/-- Mirrors `discord_notify_offline` (app.py lines 164-174): same shape, with
the "went offline at `last_live`" message. -/
def discord_notify_offline (store : Store) (fmtTime : String → String)
    (login : String) (s : Streamer) (postFails : Bool) :
    Store × List (String × String) :=
  let webhook := store.discord_webhook
  if webhook = "" then (store, [])
  else
    let last := fmtTime s.last_live
    let desc := "**" ++ s.display_name ++ "** went offline at " ++ last
      ++ ".\nhttps://twitch.tv/" ++ login
    (store, [(webhook, desc)])

/-! ### EventSub lifecycle (`start_eventsub`, app.py lines 217-237) -/

/-- One of the three per-channel EventSub subscription kinds:
`listen_stream_online`, `listen_stream_offline`, `listen_channel_update`. -/
inductive SubKind where
  | online
  | offline
  | update
deriving Repr, DecidableEq

/-- The subscriptions `start_eventsub` establishes: for each tracked streamer,
in registry order, `if not uid: continue` skips records without a resolved
`user_id`, otherwise the three listen calls are made for that `user_id`. -/
def subsFor (streamers : Registry) : List (String × SubKind) :=
  streamers.flatMap (fun p =>
    if p.2.user_id = "" then []
    else [(p.2.user_id, SubKind.online), (p.2.user_id, SubKind.offline),
          (p.2.user_id, SubKind.update)])

/-- Mirrors `start_eventsub`.  `clientOk` is whether `ensure_twitch_client()`
returns a client (credentials configured); `es` is the global `es` variable —
`none` before the EventSub WebSocket exists, `some subs` once it is listening
with the given subscription list.  No client: return with `es` unchanged.
`es is not None`: return immediately (no new connection, no new
subscriptions).  Otherwise create the websocket, `listen()`, subscribe the
three kinds for every tracked streamer with a resolved `user_id`, and `run()`. -/
def start_eventsub (clientOk : Bool) (es : Option (List (String × SubKind)))
    (streamers : Registry) : Option (List (String × SubKind)) :=
  if clientOk = false then es
  else
    match es with
    | some subs => some subs
    | none => some (subsFor streamers)

/-! ### Admin routes (`admin_streamer_add` / `admin_streamer_remove`) -/

/-- Key lookup in the streamers dict (`store["streamers"].get(login, {})` /
`login in store["streamers"]`): the record stored under `login`. -/
def lookupLogin : Registry → String → Option Streamer
  | [], _ => none
  | (l, s) :: rest, login => if l = login then some s else lookupLogin rest login

/-- Python dict assignment `store["streamers"][login] = {...}`: replace the
existing entry in place (keys are unique, insertion position kept), or append
a new entry. -/
def insertReplace : Registry → String → Streamer → Registry
  | [], login, v => [(login, v)]
  | (l, s) :: rest, login, v =>
    if l = login then (login, v) :: rest else (l, s) :: insertReplace rest login v

/-- Outcome of the `admin_streamer_add` route: a redirect back to `/admin`, or
the 400 "User not found" response. -/
inductive AddOutcome where
  | redirect
  | notFound
deriving Repr, DecidableEq

/-- Mirrors `admin_streamer_add` (app.py lines 552-582), restricted to its
registry mutation.  The form `login` is normalised with `.strip().lower()`
(the Python `str` methods, passed in as the external function `norm`);
an empty login just redirects.  `resolved` is the result of
`resolve_login_to_user` (external Twitch lookup): `none` yields the 400
response with the registry untouched.  On success the record is overwritten
with a reset state — `is_live = False`, empty `started_at`/`title`/`game_id`/
`game_name`, fresh `user_id` and `display_name` — except `last_live`, taken
from the previous record for this login when one exists
(`store["streamers"].get(login, {}).get("last_live", "")`). -/
def admin_streamer_add (reg : Registry) (norm : String → String) (rawLogin : String)
    (resolved : Option (String × String)) : Registry × AddOutcome :=
  let login := norm rawLogin
  if login = "" then (reg, .redirect)
  else
    match resolved with
    | none => (reg, .notFound)
    | some (uid, dn) =>
      let prevLast := match lookupLogin reg login with
        | some s => s.last_live
        | none => ""
      let fresh : Streamer :=
        { user_id := uid, display_name := dn, is_live := false
          last_live := prevLast, started_at := "", title := ""
          game_id := "", game_name := some "" }
      (insertReplace reg login fresh, .redirect)

/-- Mirrors `admin_streamer_remove` (app.py lines 584-592): normalise the
login with `.strip().lower()` (the external function `norm`); if it is a key
of the streamers dict, `del` its entry (keys are unique,
so deleting the key removes exactly the entries bearing it), `save_store` and
`push_update_to_clients`; otherwise nothing happens.  Either way the route
redirects. -/
def admin_streamer_remove (reg : Registry) (norm : String → String)
    (rawLogin : String) : Registry × List Effect :=
  let login := norm rawLogin
  if reg.any (fun p => p.1 = login) then
    let reg' := reg.filter (fun p => p.1 ≠ login)
    (reg', [.persist reg', .broadcast reg'])
  else (reg, [])

/-! ### Event sequences (for the last-write-wins property) -/

/-- A liveness event delivered by EventSub for a fixed channel: `live` carries
the event's `started_at`, `offline` carries the wall-clock `now_iso()` the
handler will store into `last_live`. -/
inductive LiveEv where
  | live (started : String)
  | offline (nowv : String)
deriving Repr, DecidableEq

/-- Registry transition of one liveness event (the state component of the
corresponding handler). -/
def applyLiveEv (uid : String) (reg : Registry) : LiveEv → Registry
  | .live st => (on_online reg uid st).1
  | .offline nv => (on_offline reg uid nv).1

/-- Whether the event is a `live` event. -/
def isLiveEv : LiveEv → Bool
  | .live _ => true
  | .offline _ => false

/-- The record mutation a liveness event performs on the matched record. -/
def liveEvRecord (e : LiveEv) (s : Streamer) : Streamer :=
  match e with
  | .live st => { s with is_live := true, started_at := st }
  | .offline nv => { s with is_live := false, last_live := nv }

/-! ### Concrete fixtures for counterexamples and witnesses -/

/-- A tracked channel that is already live (`user_id` 42). -/
def aliceLive : Streamer :=
  { user_id := "42", display_name := "Alice", is_live := true, last_live := ""
    started_at := "T1", title := "", game_id := "", game_name := some "" }

/-- A registry holding just the already-live channel. -/
def regLive : Registry := [("alice", aliceLive)]

/-- A tracked channel that is already offline (`user_id` 7). -/
def carolOff : Streamer :=
  { user_id := "7", display_name := "Carol", is_live := false, last_live := "L1"
    started_at := "", title := "", game_id := "", game_name := some "" }

/-- A registry holding just the already-offline channel. -/
def regOff : Registry := [("carol", carolOff)]

/-- A tracked channel with a non-empty category (`game_id = "1"`). -/
def bobMeta : Streamer :=
  { user_id := "42", display_name := "Bob", is_live := false, last_live := "L0"
    started_at := "", title := "t0", game_id := "1", game_name := some "Game1" }

/-- A registry holding just the channel with category metadata. -/
def regMeta : Registry := [("bob", bobMeta)]

/-- A concrete total category-name resolution, for evaluation. -/
def lookupX : String → Option String := fun g => some ("cat-" ++ g)

/-- A previously tracked channel with a recorded `last_live`. -/
def daveRec : Streamer :=
  { user_id := "10", display_name := "Dave", is_live := true, last_live := "L9"
    started_at := "T5", title := "tt", game_id := "g", game_name := some "G" }

/-- A registry holding just that channel, keyed by the normalised login. -/
def regDave : Registry := [("dave", daveRec)]

/-- A concrete stand-in for `json.dumps` (constant text), for witnesses. -/
def toyDump : Store → String := fun _ => "default-store-text"

/-- A concrete stand-in for `json.loads` that accepts exactly `toyDump`'s
output and rejects anything else. -/
def toyParse : String → Option Store :=
  fun t => if t = "default-store-text" then some DEFAULT_STORE else none

/-! ### Helper lemmas -/

theorem findByUid_eq_none_of {l : Registry} {uid : String}
    (h : ∀ p ∈ l, p.2.user_id ≠ uid) : findByUid l uid = none := by
  induction l with
  | nil => rfl
  | cons hd tl ih =>
    have h1 : hd.2.user_id ≠ uid := h hd (by simp)
    have h2 : ∀ p ∈ tl, p.2.user_id ≠ uid := fun p hp => h p (by simp [hp])
    obtain ⟨k, s⟩ := hd
    simp [findByUid, h1, ih h2]

theorem findByUid_applyToUid (l : Registry) (uid : String) (f : Streamer → Streamer)
    (hf : ∀ t, (f t).user_id = t.user_id) :
    findByUid (applyToUid l uid f) uid = (findByUid l uid).map (fun p => (p.1, f p.2)) := by
  induction l with
  | nil => rfl
  | cons hd tl ih =>
    obtain ⟨k, s⟩ := hd
    by_cases hc : s.user_id = uid
    · simp [applyToUid, findByUid, hc, hf s]
    · simp [applyToUid, findByUid, hc, ih]

theorem on_online_matched {reg : Registry} {uid login : String} {s : Streamer}
    (h : findByUid reg uid = some (login, s)) (started : String) :
    on_online reg uid started =
      (applyToUid reg uid (fun t => { t with is_live := true, started_at := started }),
       [.persist (applyToUid reg uid (fun t => { t with is_live := true, started_at := started })),
        .broadcast (applyToUid reg uid (fun t => { t with is_live := true, started_at := started })),
        .notifyOnline login { s with is_live := true, started_at := started }]) := by
  simp [on_online, h]

theorem on_offline_matched {reg : Registry} {uid login : String} {s : Streamer}
    (h : findByUid reg uid = some (login, s)) (nowv : String) :
    on_offline reg uid nowv =
      (applyToUid reg uid (fun t => { t with is_live := false, last_live := nowv }),
       [.persist (applyToUid reg uid (fun t => { t with is_live := false, last_live := nowv })),
        .broadcast (applyToUid reg uid (fun t => { t with is_live := false, last_live := nowv })),
        .notifyOffline login { s with is_live := false, last_live := nowv }]) := by
  simp [on_offline, h]

theorem on_channel_update_matched {reg : Registry} {uid login : String} {s : Streamer}
    (h : findByUid reg uid = some (login, s)) (ti gi : Option String)
    (lookup : String → Option String) :
    on_channel_update reg uid ti gi lookup =
      (applyToUid reg uid (channelUpdateField ti gi lookup),
       [.persist (applyToUid reg uid (channelUpdateField ti gi lookup)),
        .broadcast (applyToUid reg uid (channelUpdateField ti gi lookup))]) := by
  simp [on_channel_update, h]

theorem on_online_unmatched {reg : Registry} {uid : String}
    (h : findByUid reg uid = none) (started : String) :
    on_online reg uid started = (reg, []) := by
  simp [on_online, h]

theorem on_offline_unmatched {reg : Registry} {uid : String}
    (h : findByUid reg uid = none) (nowv : String) :
    on_offline reg uid nowv = (reg, []) := by
  simp [on_offline, h]

theorem on_channel_update_unmatched {reg : Registry} {uid : String}
    (h : findByUid reg uid = none) (ti gi : Option String)
    (lookup : String → Option String) :
    on_channel_update reg uid ti gi lookup = (reg, []) := by
  simp [on_channel_update, h]

theorem channelUpdateField_user_id (ti gi : Option String)
    (lookup : String → Option String) (t : Streamer) :
    (channelUpdateField ti gi lookup t).user_id = t.user_id := by
  cases ti <;> cases gi <;> simp [channelUpdateField] <;> split <;> simp

theorem applyLiveEv_step {reg : Registry} {uid login : String} {s : Streamer}
    (h : findByUid reg uid = some (login, s)) (e : LiveEv) :
    findByUid (applyLiveEv uid reg e) uid = some (login, liveEvRecord e s) := by
  cases e with
  | live st =>
    have h1 : applyLiveEv uid reg (.live st)
        = applyToUid reg uid (fun t => { t with is_live := true, started_at := st }) := by
      simp [applyLiveEv, on_online_matched h st]
    rw [h1, findByUid_applyToUid reg uid
      (fun t => { t with is_live := true, started_at := st }) (fun t => rfl), h]
    rfl
  | offline nv =>
    have h1 : applyLiveEv uid reg (.offline nv)
        = applyToUid reg uid (fun t => { t with is_live := false, last_live := nv }) := by
      simp [applyLiveEv, on_offline_matched h nv]
    rw [h1, findByUid_applyToUid reg uid
      (fun t => { t with is_live := false, last_live := nv }) (fun t => rfl), h]
    rfl

theorem liveEvRecord_is_live (e : LiveEv) (s : Streamer) :
    (liveEvRecord e s).is_live = isLiveEv e := by
  cases e <;> rfl

theorem remove_discards_uid {reg : Registry} {raw uid : String}
    {norm : String → String}
    (h2 : ∀ p ∈ reg, p.2.user_id = uid → p.1 = norm raw) :
    findByUid (admin_streamer_remove reg norm raw).1 uid = none := by
  unfold admin_streamer_remove
  by_cases hc : reg.any (fun p => p.1 = norm raw)
  · simp only [hc, if_true]
    apply findByUid_eq_none_of
    intro p hp heq
    have hmem := List.mem_filter.mp hp
    have hne : p.1 ≠ norm raw := by simpa using hmem.2
    exact hne (h2 p hmem.1 heq)
  · simp only [hc, if_false]
    apply findByUid_eq_none_of
    intro p hp heq
    rw [List.any_eq_true] at hc
    push_neg at hc
    have := hc p hp
    simp [h2 p hp heq] at this

theorem lookupLogin_insertReplace (l : Registry) (login : String) (v : Streamer) :
    lookupLogin (insertReplace l login v) login = some v := by
  induction l with
  | nil => simp [insertReplace, lookupLogin]
  | cons hd tl ih =>
    obtain ⟨k, s⟩ := hd
    by_cases hc : k = login
    · simp [insertReplace, lookupLogin, hc]
    · simp [insertReplace, lookupLogin, hc, ih]

theorem lookupLogin_eq_none_of {l : Registry} {login : String}
    (h : ∀ p ∈ l, p.1 ≠ login) : lookupLogin l login = none := by
  induction l with
  | nil => rfl
  | cons hd tl ih =>
    have h1 : hd.1 ≠ login := h hd (by simp)
    have h2 : ∀ p ∈ tl, p.1 ≠ login := fun p hp => h p (by simp [hp])
    obtain ⟨k, s⟩ := hd
    simp [lookupLogin, h1, ih h2]

theorem lookupLogin_remove (reg : Registry) (norm : String → String) (raw : String) :
    lookupLogin (admin_streamer_remove reg norm raw).1 (norm raw) = none := by
  unfold admin_streamer_remove
  by_cases hc : reg.any (fun p => p.1 = norm raw)
  · simp only [hc, if_true]
    apply lookupLogin_eq_none_of
    intro p hp
    have hmem := List.mem_filter.mp hp
    simpa using hmem.2
  · simp only [hc, if_false]
    apply lookupLogin_eq_none_of
    intro p hp
    rw [List.any_eq_true] at hc
    push_neg at hc
    have := hc p hp
    simpa using this

theorem broadcast_foldl (fails : Client → Bool) (snap : Registry) :
    ∀ (l : List Client) (sent : List (Client × Registry)) (dead : List Client),
    l.foldl (fun acc ws =>
        if fails ws then (acc.1, acc.2 ++ [ws]) else (acc.1 ++ [(ws, snap)], acc.2))
      (sent, dead)
      = (sent ++ (l.filter (fun c => !(fails c))).map (fun c => (c, snap)),
         dead ++ l.filter fails) := by
  intro l
  induction l with
  | nil => intro sent dead; simp
  | cons x xs ih =>
    intro sent dead
    by_cases hx : fails x = true
    · simp [List.foldl_cons, hx, ih, List.filter_cons]
    · simp only [Bool.not_eq_true] at hx
      simp [List.foldl_cons, hx, ih, List.filter_cons]

theorem foldl_erase_cons (x : Client) (l : List Client) :
    ∀ (ds : List Client), (∀ d ∈ ds, d ≠ x) →
    ds.foldl (fun cs d => cs.erase d) (x :: l)
      = x :: ds.foldl (fun cs d => cs.erase d) l := by
  intro ds
  induction ds generalizing l with
  | nil => intro _; simp
  | cons d ds ih =>
    intro h
    have hdx : x ≠ d := fun he => (h d (by simp)) he.symm
    simp only [List.foldl_cons]
    rw [List.erase_cons_tail (by simpa using hdx)]
    exact ih (l.erase d) (fun e he => h e (by simp [he]))

theorem erase_filter (p : Client → Bool) (l : List Client) :
    (l.filter p).foldl (fun cs d => cs.erase d) l = l.filter (fun c => !(p c)) := by
  induction l with
  | nil => rfl
  | cons x xs ih =>
    by_cases hx : p x = true
    · have hf : (x :: xs).filter p = x :: xs.filter p := by simp [hx]
      rw [hf, List.foldl_cons, List.erase_cons_head, ih]
      simp [hx]
    · simp only [Bool.not_eq_true] at hx
      have hf : (x :: xs).filter p = xs.filter p := by simp [hx]
      rw [hf, foldl_erase_cons x xs (xs.filter p) ?hne, ih]
      · simp [hx]
      case hne =>
        intro d hd he
        subst he
        have := List.of_mem_filter hd
        simp [hx] at this

/-! ### Claim theorems -/

/-- Claim C1 (evidence for the divergence): the handlers dispatch a Discord
notification on every applied liveness event for a tracked channel,
regardless of whether `is_live` changes.  Evaluated at the failing inputs:
a `live` event for a channel that is already live (`aliceLive.is_live = true`)
still emits a notification effect, and an `offline` event for a channel that
is already offline (`carolOff.is_live = false`) does too — contradicting
"a repeated live event or repeated offline event dispatches no notification". -/
theorem repeated_liveness_event_still_notifies :
    aliceLive.is_live = true
    ∧ (on_online regLive "42" "T2").2.any isNotifyEffect = true
    ∧ carolOff.is_live = false
    ∧ (on_offline regOff "7" "N1").2.any isNotifyEffect = true :=
  ⟨rfl, rfl, rfl, rfl⟩

/-- Claim C2 counterexample: a repeated `live` event on an already-live
channel commits a change whose effect list contains a notification although
`is_live` did not transition — so "(only if a liveness edge occurred) dispatch
the notification" is false of the code at this input. -/
theorem commit_notifies_without_liveness_edge :
    (on_online regLive "42" "T2").2.any isNotifyEffect = true
    ∧ (findByUid (on_online regLive "42" "T2").1 "42").map (fun p => p.2.is_live)
        = (findByUid regLive "42").map (fun p => p.2.is_live) :=
  ⟨rfl, rfl⟩

/-- Claim C2 (amended): for every event that commits a change to a tracked
channel's record, the effects occur in the order persist, then broadcast,
then the notification — dispatched unconditionally for live/offline events
and never for metadata updates; exactly one snapshot is persisted and exactly
one is broadcast, and the persisted and broadcast snapshots are identical
(both are `reg1`/`reg2`/`reg3` below). -/
theorem commit_effect_order (reg : Registry) (uid login : String) (s : Streamer)
    (started nowv : String) (ti gi : Option String) (lookup : String → Option String)
    (h : findByUid reg uid = some (login, s)) :
    (∃ reg1 s1, on_online reg uid started
        = (reg1, [.persist reg1, .broadcast reg1, .notifyOnline login s1]))
    ∧ (∃ reg2 s2, on_offline reg uid nowv
        = (reg2, [.persist reg2, .broadcast reg2, .notifyOffline login s2]))
    ∧ (∃ reg3, on_channel_update reg uid ti gi lookup
        = (reg3, [.persist reg3, .broadcast reg3])) :=
  ⟨⟨_, _, on_online_matched h started⟩, ⟨_, _, on_offline_matched h nowv⟩,
    ⟨_, on_channel_update_matched h ti gi lookup⟩⟩

/-- Witness for C2's amended theorem at a concrete tracked channel. -/
theorem commit_effect_order_witness :
    (∃ reg1 s1, on_online regOff "7" "T9"
        = (reg1, [Effect.persist reg1, Effect.broadcast reg1, Effect.notifyOnline "carol" s1]))
    ∧ (∃ reg2 s2, on_offline regOff "7" "N9"
        = (reg2, [Effect.persist reg2, Effect.broadcast reg2, Effect.notifyOffline "carol" s2]))
    ∧ (∃ reg3, on_channel_update regOff "7" none none lookupX
        = (reg3, [Effect.persist reg3, Effect.broadcast reg3])) :=
  commit_effect_order regOff "7" "carol" carolOff "T9" "N9" none none lookupX rfl

/-- Claim C3: an inbound event whose `broadcaster_user_id` matches no tracked
record is a no-op — the registry is unchanged and no effect (persist,
broadcast, notification) is performed; in particular this holds for events
arriving after `admin_streamer_remove` deleted the channel that carried the
id (second conjunct; the hypothesis says every record bearing the id is keyed
by the removed login).  Totality of the functions models "no error raised". -/
theorem unknown_channel_event_is_noop (reg : Registry)
    (uid started nowv raw : String) (ti gi : Option String)
    (lookup : String → Option String) (norm : String → String) :
    (findByUid reg uid = none →
      on_online reg uid started = (reg, [])
      ∧ on_offline reg uid nowv = (reg, [])
      ∧ on_channel_update reg uid ti gi lookup = (reg, []))
    ∧ ((∀ p ∈ reg, p.2.user_id = uid → p.1 = norm raw) →
      on_online (admin_streamer_remove reg norm raw).1 uid started
          = ((admin_streamer_remove reg norm raw).1, [])
      ∧ on_offline (admin_streamer_remove reg norm raw).1 uid nowv
          = ((admin_streamer_remove reg norm raw).1, [])
      ∧ on_channel_update (admin_streamer_remove reg norm raw).1 uid ti gi lookup
          = ((admin_streamer_remove reg norm raw).1, [])) := by
  constructor
  · intro h
    exact ⟨on_online_unmatched h started, on_offline_unmatched h nowv,
      on_channel_update_unmatched h ti gi lookup⟩
  · intro h2
    have hn := remove_discards_uid h2
    exact ⟨on_online_unmatched hn started, on_offline_unmatched hn nowv,
      on_channel_update_unmatched hn ti gi lookup⟩

/-- Witness for C3: an event for untracked id 99 is a no-op, and after
removing `alice` an event for her id 42 is a no-op. -/
theorem unknown_channel_event_is_noop_witness :
    on_online regLive "99" "T3" = (regLive, [])
    ∧ on_online (admin_streamer_remove regLive id "alice").1 "42" "T3"
        = ((admin_streamer_remove regLive id "alice").1, []) := by
  have h1 := unknown_channel_event_is_noop regLive "99" "T3" "N3" "x" none none lookupX id
  have h2 := unknown_channel_event_is_noop regLive "42" "T3" "N3" "alice" none none lookupX id
  exact ⟨(h1.1 rfl).1, (h2.2 (by decide)).1⟩

/-- Claim C4: last-write-wins — after folding any sequence of liveness events
for a tracked channel over the registry, the channel's `is_live` is `true`
exactly when the most recently applied event (the last of the sequence) was a
`live` event, `false` when it was an `offline` event. -/
theorem last_write_wins (uid : String) (es : List LiveEv) :
    ∀ (reg : Registry) (login : String) (s : Streamer) (e : LiveEv),
    findByUid reg uid = some (login, s) → es.getLast? = some e →
    (findByUid (es.foldl (applyLiveEv uid) reg) uid).map (fun p => p.2.is_live)
      = some (isLiveEv e) := by
  induction es with
  | nil => intro reg login s e h hlast; simp at hlast
  | cons x xs ih =>
    intro reg login s e h hlast
    have hstep := applyLiveEv_step h x
    cases xs with
    | nil =>
      simp only [List.getLast?_singleton, Option.some.injEq] at hlast
      subst hlast
      simp [List.foldl_cons, List.foldl_nil, hstep, liveEvRecord_is_live]
    | cons y ys =>
      rw [List.foldl_cons]
      refine ih (applyLiveEv uid reg x) login (liveEvRecord x s) e hstep ?_
      simpa [List.getLast?_cons_cons] using hlast

/-- Witness for C4: live, live, offline ends with `is_live = false`. -/
theorem last_write_wins_witness :
    (findByUid ([LiveEv.live "Ta", LiveEv.live "Tb", LiveEv.offline "Nc"].foldl
        (applyLiveEv "42") regLive) "42").map (fun p => p.2.is_live)
      = some (isLiveEv (LiveEv.offline "Nc")) :=
  last_write_wins "42" [LiveEv.live "Ta", LiveEv.live "Tb", LiveEv.offline "Nc"]
    regLive "alice" aliceLive (LiveEv.offline "Nc") rfl rfl

/-- Claim C5 counterexample: a `metadata_update` whose `category_id` is
present but empty (`some ""` — Python `data["event"].get("category_id")`
returning `""` is falsy) does not update the category fields: `bobMeta`'s
`game_id` stays `"1"` instead of being set to the present value `""`. -/
theorem present_empty_category_id_not_applied :
    (findByUid (on_channel_update regMeta "42" none (some "") lookupX).1 "42").map
        (fun p => p.2.game_id) = some "1"
    ∧ ¬ (("1" : String) = "") :=
  ⟨rfl, by decide⟩

/-- Claim C5 (amended): a `metadata_update` on a tracked channel updates only
the fields present in the event — the title when present, and the category id
together with the resolved category name when `category_id` is present and
non-empty (a present-but-empty `category_id` leaves both category fields
unchanged); `is_live`, `started_at`, `last_live`, `user_id` and
`display_name` are unchanged, and no notification effect is dispatched. -/
theorem metadata_update_frame (reg : Registry) (uid login : String) (s : Streamer)
    (ti gi : Option String) (lookup : String → Option String)
    (h : findByUid reg uid = some (login, s)) :
    ∃ s', findByUid (on_channel_update reg uid ti gi lookup).1 uid = some (login, s')
      ∧ s'.is_live = s.is_live ∧ s'.started_at = s.started_at
      ∧ s'.last_live = s.last_live ∧ s'.user_id = s.user_id
      ∧ s'.display_name = s.display_name
      ∧ s'.title = (match ti with | some x => x | none => s.title)
      ∧ (∀ g, gi = some g → ¬ (g = "") → s'.game_id = g ∧ s'.game_name = lookup g)
      ∧ ((gi = none ∨ gi = some "") → s'.game_id = s.game_id ∧ s'.game_name = s.game_name)
      ∧ (on_channel_update reg uid ti gi lookup).2.any isNotifyEffect = false := by
  have hfind : findByUid (on_channel_update reg uid ti gi lookup).1 uid
      = some (login, channelUpdateField ti gi lookup s) := by
    rw [on_channel_update_matched h ti gi lookup,
      findByUid_applyToUid reg uid (channelUpdateField ti gi lookup)
        (channelUpdateField_user_id ti gi lookup), h]
    rfl
  have hany : (on_channel_update reg uid ti gi lookup).2.any isNotifyEffect = false := by
    rw [on_channel_update_matched h ti gi lookup]
    rfl
  refine ⟨channelUpdateField ti gi lookup s, hfind, ?_, ?_, ?_, ?_, ?_, ?_, ?_, ?_, hany⟩
  · cases ti <;> cases gi <;> simp [channelUpdateField] <;> split <;> simp
  · cases ti <;> cases gi <;> simp [channelUpdateField] <;> split <;> simp
  · cases ti <;> cases gi <;> simp [channelUpdateField] <;> split <;> simp
  · cases ti <;> cases gi <;> simp [channelUpdateField] <;> split <;> simp
  · cases ti <;> cases gi <;> simp [channelUpdateField] <;> split <;> simp
  · cases ti <;> cases gi <;> simp [channelUpdateField] <;> split <;> simp_all
  · intro g hg hgne
    subst hg
    cases ti <;> simp [channelUpdateField, hgne]
  · intro hor
    rcases hor with hn | he
    · subst hn; cases ti <;> simp [channelUpdateField]
    · subst he; cases ti <;> simp [channelUpdateField]

/-- Witness for C5's amended theorem on a concrete channel and event. -/
theorem metadata_update_frame_witness :
    ∃ s', findByUid (on_channel_update regMeta "42" (some "newT") (some "9") lookupX).1 "42"
        = some ("bob", s')
      ∧ s'.is_live = bobMeta.is_live ∧ s'.last_live = bobMeta.last_live := by
  obtain ⟨s', h1, h2, _, h4, _⟩ :=
    metadata_update_frame regMeta "42" "bob" bobMeta (some "newT") (some "9") lookupX rfl
  exact ⟨s', h1, h2, h4⟩

/-- Claim C6: `push_update_to_clients` never raises to its caller (it is a
total function), delivers the snapshot to exactly the subscribers whose send
does not fail, in registry order, and removes exactly the failing subscribers
from `WS_CLIENTS`. -/
theorem broadcast_failure_isolated (clients : List Client) (fails : Client → Bool)
    (snap : Registry) :
    (push_update_to_clients clients fails snap).1
        = (clients.filter (fun c => !(fails c))).map (fun c => (c, snap))
    ∧ (push_update_to_clients clients fails snap).2
        = clients.filter (fun c => !(fails c)) := by
  unfold push_update_to_clients
  dsimp only
  rw [broadcast_foldl fails snap clients [] []]
  simp only [List.nil_append]
  exact ⟨trivial, erase_filter fails clients⟩

/-- Claim C7: the Discord notification dispatchers are no-ops when no webhook
is configured, never modify the store (in particular the channel registry),
and swallow the delivery outcome — the result is identical whether the HTTP
post fails or succeeds (the source discards it with `except Exception: pass`);
totality models "never raises to its caller". -/
theorem discord_notify_noop_and_swallow (store : Store) (fmt : String → String)
    (login : String) (s : Streamer) (pf pfAlt : Bool) :
    (discord_notify_online store fmt login s pf).1 = store
    ∧ (discord_notify_offline store fmt login s pf).1 = store
    ∧ (store.discord_webhook = "" →
        discord_notify_online store fmt login s pf = (store, [])
        ∧ discord_notify_offline store fmt login s pf = (store, []))
    ∧ discord_notify_online store fmt login s pf
        = discord_notify_online store fmt login s pfAlt
    ∧ discord_notify_offline store fmt login s pf
        = discord_notify_offline store fmt login s pfAlt := by
  unfold discord_notify_online discord_notify_offline
  by_cases h : store.discord_webhook = "" <;> simp [h]

/-- Witness for C7 at the default store, whose webhook is empty. -/
theorem discord_notify_noop_and_swallow_witness :
    (discord_notify_online DEFAULT_STORE id "a" aliceLive true).1 = DEFAULT_STORE
    ∧ discord_notify_online DEFAULT_STORE id "a" aliceLive true = (DEFAULT_STORE, [])
    ∧ discord_notify_offline DEFAULT_STORE id "a" aliceLive true = (DEFAULT_STORE, []) := by
  have h := discord_notify_noop_and_swallow DEFAULT_STORE id "a" aliceLive true false
  exact ⟨h.1, (h.2.2.1 rfl).1, (h.2.2.1 rfl).2⟩

/-- Claim C8: `start_eventsub` is idempotent.  With a Twitch client available
and `es` still `None`, the call establishes the connection, subscribed to the
three event kinds for every tracked channel with a resolved (non-empty)
`user_id`; any call while `es` is already set returns immediately, leaving
the connection and the subscription set untouched. -/
theorem start_eventsub_idem (reg regAlt : Registry) (c : Bool)
    (subs : List (String × SubKind)) :
    start_eventsub true none reg = some (subsFor reg)
    ∧ (∀ p ∈ reg, ¬ (p.2.user_id = "") →
        ((p.2.user_id, SubKind.online) ∈ subsFor reg
          ∧ (p.2.user_id, SubKind.offline) ∈ subsFor reg
          ∧ (p.2.user_id, SubKind.update) ∈ subsFor reg))
    ∧ start_eventsub c (some subs) regAlt = some subs := by
  refine ⟨rfl, ?_, ?_⟩
  · intro p hp hne
    refine ⟨?_, ?_, ?_⟩ <;>
    · apply List.mem_flatMap.mpr
      exact ⟨p, hp, by simp [hne]⟩
  · cases c <;> rfl

/-- Witness for C8: first call on a one-channel registry subscribes that
channel; a second call (even against a different registry) is a no-op. -/
theorem start_eventsub_idem_witness :
    start_eventsub true none regLive = some (subsFor regLive)
    ∧ ("42", SubKind.online) ∈ subsFor regLive
    ∧ start_eventsub true (some (subsFor regLive)) [] = some (subsFor regLive) := by
  have h := start_eventsub_idem regLive [] true (subsFor regLive)
  refine ⟨h.1, ?_, h.2.2⟩
  exact (h.2.1 ("alice", aliceLive) (by simp [regLive]) (by decide)).1

/-- Claim C9: re-adding a login that is already tracked overwrites its record
with the reset state (`is_live = false`, empty `started_at`, `title`,
`game_id`, `game_name`, fresh `user_id`/`display_name` from the resolution)
but keeps the previous record's `last_live`; after a removal the login is no
longer a key, so a subsequent re-add starts with an empty `last_live`. -/
theorem add_preserves_last_live (reg : Registry) (norm : String → String)
    (raw uid dn : String) (hne : ¬ (norm raw = "")) :
    (∀ s0, lookupLogin reg (norm raw) = some s0 →
      lookupLogin (admin_streamer_add reg norm raw (some (uid, dn))).1 (norm raw)
        = some { user_id := uid, display_name := dn, is_live := false,
                 last_live := s0.last_live, started_at := "", title := "",
                 game_id := "", game_name := some "" })
    ∧ lookupLogin ((admin_streamer_remove reg norm raw).1) (norm raw) = none
    ∧ (lookupLogin reg (norm raw) = none →
        lookupLogin (admin_streamer_add reg norm raw (some (uid, dn))).1 (norm raw)
          = some { user_id := uid, display_name := dn, is_live := false,
                   last_live := "", started_at := "", title := "",
                   game_id := "", game_name := some "" }) := by
  refine ⟨?_, lookupLogin_remove reg norm raw, ?_⟩
  · intro s0 h0
    unfold admin_streamer_add
    dsimp only
    rw [if_neg hne]
    dsimp only
    rw [h0]
    exact lookupLogin_insertReplace reg (norm raw) _
  · intro h0
    unfold admin_streamer_add
    dsimp only
    rw [if_neg hne]
    dsimp only
    rw [h0]
    exact lookupLogin_insertReplace reg (norm raw) _

/-- Witness for C9: re-adding `dave` keeps `last_live = "L9"`; after removal
the key is gone (so a re-add would start from the empty default). -/
theorem add_preserves_last_live_witness :
    lookupLogin (admin_streamer_add regDave id "dave" (some ("10", "DaveDN"))).1 "dave"
      = some { user_id := "10", display_name := "DaveDN", is_live := false,
               last_live := "L9", started_at := "", title := "",
               game_id := "", game_name := some "" }
    ∧ lookupLogin ((admin_streamer_remove regDave id "dave").1) "dave" = none := by
  have h := add_preserves_last_live regDave id "dave" "10" "DaveDN" (by decide)
  exact ⟨h.1 daveRec rfl, h.2.1⟩

/-- Claim C10: when the store file is absent, or present but unparseable,
`load_store` writes the serialized default store over it and returns the
defaults — the previous content is discarded, not surfaced as an error.  The
hypothesis is the `json` round trip on the default document. -/
theorem load_store_defaults (parse : String → Option Store) (dump : Store → String)
    (hrt : parse (dump DEFAULT_STORE) = some DEFAULT_STORE) :
    load_store none parse dump = some (DEFAULT_STORE, dump DEFAULT_STORE)
    ∧ (∀ txt, parse txt = none →
        load_store (some txt) parse dump = some (DEFAULT_STORE, dump DEFAULT_STORE)) := by
  constructor
  · simp [load_store, hrt]
  · intro txt h
    simp [load_store, h, hrt]

/-- Witness for C10 with a concrete round-tripping serializer: a missing file
and an unparseable file both yield the defaults and overwrite the file. -/
theorem load_store_defaults_witness :
    load_store none toyParse toyDump = some (DEFAULT_STORE, toyDump DEFAULT_STORE)
    ∧ load_store (some "garbage") toyParse toyDump
        = some (DEFAULT_STORE, toyDump DEFAULT_STORE) := by
  have h := load_store_defaults toyParse toyDump (by rfl)
  exact ⟨h.1, h.2 "garbage" (by rfl)⟩

end DiscNote
